import Mathlib

set_option maxRecDepth 4000

/-!
Verification development for the Quiz-Master-Medical application
(`src/app.py`).  The quiz-generation engine (`generate_quiz`), the
response-cleaning / JSON-parsing step, prompt construction, the
`Start Quiz` UI handler, the report generator (`create_text_report`)
and the history loader (`load_history`) are embedded as executable
Lean definitions over `List Char` strings, and the specification's
claims about them are settled as theorems.

Conventions of the embedding:
* Python strings are `List Char`; a Lean `String` literal `s` is
  injected with `s.data`.
* Raised Python exceptions are `Option`/`Except` error values.
* The remote generative-AI call is an oracle `Nat → CallOutcome`
  giving the outcome of each successive invocation; the embedding of
  `generate_quiz` records how many invocations it performs and how
  many seconds of backoff sleeping it does, so that retry claims can
  be stated.
* `json.loads` is modelled by an executable recursive-descent parser
  for the JSON subset relevant here: null, booleans, integer
  numerals, strings with the standard escapes, arrays and objects
  (floats and the non-standard NaN/Infinity extensions are not
  modelled; no claim involves them).
-/

/-- Parsed JSON values, the result type of the `json.loads` model.
Objects are insertion-ordered key/value lists, as Python dicts are. -/
inductive Json where
  | null : Json
  | bool (b : Bool) : Json
  | num (n : Int) : Json
  | str (s : String) : Json
  | arr (xs : List Json) : Json
  | obj (kvs : List (String × Json)) : Json

/-- Whitespace skipped by the JSON grammar between tokens. -/
def isJsonWs (c : Char) : Bool :=
  c = ' ' || c = '\t' || c = '\n' || c = '\r'

/-- Skip JSON inter-token whitespace. -/
def skipWs (s : List Char) : List Char := s.dropWhile isJsonWs

/-- Value of one hexadecimal digit. -/
def hexVal (c : Char) : Option Nat :=
  if '0' ≤ c ∧ c ≤ '9' then some (c.toNat - 48)
  else if 'a' ≤ c ∧ c ≤ 'f' then some (c.toNat - 87)
  else if 'A' ≤ c ∧ c ≤ 'F' then some (c.toNat - 55)
  else none

/-- Translation of a single-character JSON string escape. -/
def escChar (c : Char) : Option Char :=
  if c = '"' then some '"'
  else if c = '\\' then some '\\'
  else if c = '/' then some '/'
  else if c = 'n' then some '\n'
  else if c = 't' then some '\t'
  else if c = 'r' then some '\r'
  else if c = 'b' then some '\x08'
  else if c = 'f' then some '\x0c'
  else none

/-- Parse the body of a JSON string literal after the opening quote;
returns the decoded characters and the rest after the closing quote. -/
def parseStringBody : List Char → Option (List Char × List Char)
  | [] => none
  | '"' :: r => some ([], r)
  | '\\' :: r =>
    match r with
    | 'u' :: h1 :: h2 :: h3 :: h4 :: r1 => do
      let a ← hexVal h1
      let b ← hexVal h2
      let c ← hexVal h3
      let d ← hexVal h4
      let p ← parseStringBody r1
      pure (Char.ofNat (a * 4096 + b * 256 + c * 16 + d) :: p.1, p.2)
    | e :: r1 => do
      let c ← escChar e
      let p ← parseStringBody r1
      pure (c :: p.1, p.2)
    | [] => none
  | c :: r => do
    let p ← parseStringBody r
    pure (c :: p.1, p.2)

/-- Split off the leading run of decimal digits. -/
def takeDigits : List Char → (List Char × List Char)
  | [] => ([], [])
  | c :: r =>
    if c.isDigit then
      let p := takeDigits r
      (c :: p.1, p.2)
    else ([], c :: r)

/-- Decimal value of a digit run. -/
def digitsToNat (acc : Nat) : List Char → Nat
  | [] => acc
  | c :: r => digitsToNat (acc * 10 + (c.toNat - 48)) r

/-- Parse an unsigned JSON integer numeral (no leading zeros, and no
fraction/exponent, which the model does not support). -/
def parseNatTok (s : List Char) : Option (Nat × List Char) :=
  let p := takeDigits s
  match p.1 with
  | [] => none
  | d :: ds =>
    if d = '0' ∧ ds ≠ [] then none
    else
      match p.2 with
      | '.' :: _ => none
      | 'e' :: _ => none
      | 'E' :: _ => none
      | _ => some (digitsToNat 0 (d :: ds), p.2)

/-- Parse a JSON integer numeral with optional leading minus. -/
def parseIntTok : List Char → Option (Int × List Char)
  | '-' :: r => (parseNatTok r).map (fun p => (-(p.1 : Int), p.2))
  | s => (parseNatTok s).map (fun p => ((p.1 : Int), p.2))

/-- Insert a key into an object, overwriting the value but keeping
the original position when the key is already present (Python dict
semantics for duplicate JSON keys). -/
def objSet (kvs : List (String × Json)) (k : String) (v : Json) :
    List (String × Json) :=
  match kvs with
  | [] => [(k, v)]
  | (k', v') :: rest =>
    if k' = k then (k', v) :: rest else (k', v') :: objSet rest k v

/-- Parse the comma-separated elements of a JSON array given a parser
`pv` for single values; `n` is loop fuel (one unit per element). -/
def parseElemsWith (pv : List Char → Option (Json × List Char)) :
    Nat → List Json → List Char → Option (Json × List Char)
  | 0, _, _ => none
  | n + 1, acc, s => do
    let p ← pv s
    match skipWs p.2 with
    | ',' :: r1 => parseElemsWith pv n (acc ++ [p.1]) r1
    | ']' :: r1 => some (Json.arr (acc ++ [p.1]), r1)
    | _ => none

/-- Parse the comma-separated members of a JSON object given a parser
`pv` for single values; `n` is loop fuel (one unit per member). -/
def parseMembersWith (pv : List Char → Option (Json × List Char)) :
    Nat → List (String × Json) → List Char → Option (Json × List Char)
  | 0, _, _ => none
  | n + 1, acc, s =>
    match skipWs s with
    | '"' :: r => do
      let pk ← parseStringBody r
      match skipWs pk.2 with
      | ':' :: r2 => do
        let p ← pv r2
        let acc' := objSet acc (String.mk pk.1) p.1
        match skipWs p.2 with
        | ',' :: r4 => parseMembersWith pv n acc' r4
        | '\x7d' :: r4 => some (Json.obj acc', r4)
        | _ => none
      | _ => none
    | _ => none

/-- Parse one JSON value; `fuel` bounds the nesting depth. -/
def parseValue : Nat → List Char → Option (Json × List Char)
  | 0, _ => none
  | n + 1, s =>
    match skipWs s with
    | 'n' :: 'u' :: 'l' :: 'l' :: r => some (Json.null, r)
    | 't' :: 'r' :: 'u' :: 'e' :: r => some (Json.bool true, r)
    | 'f' :: 'a' :: 'l' :: 's' :: 'e' :: r => some (Json.bool false, r)
    | '"' :: r =>
      (parseStringBody r).map (fun p => (Json.str (String.mk p.1), p.2))
    | '[' :: r =>
      (match skipWs r with
       | ']' :: r1 => some (Json.arr [], r1)
       | r1 => parseElemsWith (parseValue n) (r1.length + 1) [] r1)
    | '\x7b' :: r =>
      (match skipWs r with
       | '\x7d' :: r1 => some (Json.obj [], r1)
       | r1 => parseMembersWith (parseValue n) (r1.length + 1) [] r1)
    | s1 => (parseIntTok s1).map (fun p => (Json.num p.1, p.2))

/-- Model of Python `json.loads`: parse a complete JSON document,
allowing trailing whitespace only; `none` is a raised `JSONDecodeError`. -/
def parseJson (s : List Char) : Option Json :=
  match parseValue (s.length + 1) s with
  | some p => if (skipWs p.2).isEmpty then some p.1 else none
  | none => none

example : parseJson "[1, 2]".data = some (Json.arr [Json.num 1, Json.num 2]) := by rfl

example :
    parseJson "[\x7b\"a\": \"x\", \"b\": [true, null, -3]\x7d]".data =
      some (Json.arr [Json.obj
        [("a", Json.str "x"), ("b", Json.arr [Json.bool true, Json.null, Json.num (-3)])]]) := by
  rfl

example : parseJson "Sure! [1]".data = none := by rfl

/-!
Model of the Python string operations used on the model response
(line 151 of `app.py`): `str.replace` replaces every non-overlapping
occurrence of a pattern left to right, and `str.strip` removes
whitespace from both ends.
-/

/-- Worker for `pyReplace`.  `skip` counts characters of an already
matched occurrence that remain to be dropped; at `skip = 0` a new
match of `pat` is attempted at the current position. -/
def replaceAux (pat rep : List Char) : List Char → Nat → List Char
  | [], _ => []
  | _ :: rest, Nat.succ skip => replaceAux pat rep rest skip
  | c :: rest, 0 =>
    if List.isPrefixOf pat (c :: rest) then
      rep ++ replaceAux pat rep rest (pat.length - 1)
    else c :: replaceAux pat rep rest 0

/-- Model of Python `s.replace(pat, rep)` for a non-empty pattern:
every non-overlapping occurrence, scanned left to right, is replaced,
and replacements are not rescanned. -/
def pyReplace (pat rep s : List Char) : List Char := replaceAux pat rep s 0

/-- Whitespace characters removed by Python `str.strip()` (the ASCII
ones; the response texts considered contain no exotic whitespace). -/
def isPySpace (c : Char) : Bool :=
  c = ' ' || c = '\t' || c = '\n' || c = '\r' || c = '\x0b' || c = '\x0c'

/-- Model of Python `str.strip()`: drop whitespace from both ends. -/
def pyStrip (s : List Char) : List Char :=
  List.reverse (List.dropWhile isPySpace
    (List.reverse (List.dropWhile isPySpace s)))

/-- Line 151 of `app.py`:
`response.text.replace("```json", "").replace("```", "").strip()`. -/
def clean_response (t : List Char) : List Char :=
  pyStrip (pyReplace "```".data [] (pyReplace "```json".data [] t))

/-- Lines 151–152 of `app.py` as one step: clean the response text and
parse it with `json.loads`; `none` is a raised `JSONDecodeError`. -/
def extract_json (t : List Char) : Option Json :=
  parseJson (clean_response t)

example :
    clean_response "```json\n[1, 2]\n```".data = "[1, 2]".data := by rfl

example :
    extract_json "```json\n[1, 2]\n```".data =
      some (Json.arr [Json.num 1, Json.num 2]) := by rfl

example : extract_json "Sure! ```json\n[1]\n```".data = none := by rfl

/-!
Embedding of `generate_quiz` (lines 105–152 of `app.py`): prompt
construction, the single remote invocation, and response parsing.
-/

/-- ASCII apostrophe, written via its code point. -/
def apos : Char := Char.ofNat 39

/-- The `input_type` strings `"Topic"`, `"Text/PDF"`, `"Image"`. -/
inductive InputType where
  | inputTopic : InputType
  | inputTextPdf : InputType
  | inputImage : InputType
deriving DecidableEq

/-- The dynamically typed `context_data` argument: `None`, a text
context, or a PIL image (whose pixel data is irrelevant here). -/
inductive ContextData where
  | noCtx : ContextData
  | textCtx (s : List Char) : ContextData
  | imageCtx : ContextData
deriving DecidableEq

/-- Python truthiness of `context_data`: `None` and the empty string
are falsy, a non-empty string and an image are truthy. -/
def ctxTruthy : ContextData → Bool
  | .noCtx => false
  | .textCtx s => !s.isEmpty
  | .imageCtx => true

/-- Argument record of one `generate_quiz` call. -/
structure GenRequest where
  model_name : List Char
  topic : List Char
  num : Nat
  difficulty : List Char
  input_type : InputType
  context_data : ContextData
  previous_questions : List (List Char)

/-- The base instruction f-string of lines 108–116, with `difficulty`,
`num` and `topic` interpolated. -/
def basePrompt (difficulty : List Char) (num : Nat) (topic : List Char) :
    List Char :=
  "\n    Act as a Medical Consultant. Create a ".data ++ difficulty ++
  " quiz with ".data ++ (Nat.repr num).data ++
  " questions.\n    Topic: ".data ++ topic ++
  ("\n    \n    CRITICAL RULES:\n    1. Output strictly valid JSON.\n    2. Explanations must be SHORT (max 2 sentences).\n    3. ".data ++
   [apos] ++ "extra_edge".data ++ [apos] ++
   " must be brief high-yield facts.\n    ".data)

/-- Python `previous_questions[-50:]`: the last `n` elements. -/
def pySliceLast (n : Nat) (l : List (List Char)) : List (List Char) :=
  l.drop (l.length - n)

/-- Lines 118–120: the exclusion block appended when prior questions
are supplied — header, the last 50 questions joined by newlines, and a
trailing newline. -/
def exclusionBlock (previous_questions : List (List Char)) : List Char :=
  "\n\nIMPORTANT: Do NOT repeat the following questions:\n".data ++
  List.intercalate "\n".data (pySliceLast 50 previous_questions) ++
  "\n".data

/-- The prompt after lines 108–120: base instruction plus the
exclusion block when `previous_questions` is non-empty. -/
def promptCore (req : GenRequest) : List Char :=
  basePrompt req.difficulty req.num req.topic ++
  (if req.previous_questions.isEmpty then []
   else exclusionBlock req.previous_questions)

/-- Lines 124–129: the context addition chosen by `input_type` and the
truthiness of `context_data`.  `none` models the `TypeError` raised by
slicing an image in text mode; text context is truncated to its first
15000 characters before anything is sent. -/
def ctxAddition : InputType → ContextData → Option (List Char)
  | .inputTextPdf, ctx =>
    if ctxTruthy ctx then
      match ctx with
      | .textCtx s => some ("\n\nContext:\n".data ++ s.take 15000 ++ "...".data)
      | _ => none
    else some []
  | .inputImage, ctx =>
    if ctxTruthy ctx then some "\n\nAnalyze this medical image.".data
    else some []
  | .inputTopic, _ => some []

/-- The JSON-structure directive of lines 131–143. -/
def jsonStructureBlock : List Char :=
  "\n    JSON STRUCTURE:\n    [\n        \x7b\n            \"question\": \"Scenario...\",\n            \"options\": \x7b\"A\": \"..\", \"B\": \"..\", \"C\": \"..\", \"D\": \"..\"\x7d,\n            \"correct_option\": \"A\",\n            \"explanation\": \"Brief reasoning.\",\n            \"more_explanation\": \"Pathophysiology.\",\n            \"extra_edge\": \"High Yield Fact.\"\n        \x7d\n    ]\n    ".data

/-- The payload handed to `model.generate_content`: the full prompt
text, and whether `context_data` is attached as a second content part
(lines 127–129 and 145–148). -/
structure Payload where
  text : List Char
  attachesContext : Bool
deriving DecidableEq

/-- Prompt construction, lines 106–148 of `generate_quiz`: the
sequence of `prompt_text +=` steps followed by the final rebuild of
`content_payload`.  Returns `none` when construction raises (image
context in text mode). -/
def buildPrompt (req : GenRequest) : Option Payload :=
  (ctxAddition req.input_type req.context_data).map (fun add =>
    { text := promptCore req ++ add ++ jsonStructureBlock
      attachesContext :=
        req.input_type = .inputImage && ctxTruthy req.context_data })

/-- Outcome of one invocation of the remote generation call. -/
inductive CallOutcome where
  | ok (text : List Char) : CallOutcome
  | rateLimit : CallOutcome
  | apiFailure : CallOutcome
deriving DecidableEq

/-- The exception classes that can escape `generate_quiz`. -/
inductive GenError where
  | typeErr : GenError
  | rateLimited : GenError
  | apiFailed : GenError
  | parseFailed : GenError
deriving DecidableEq

/-- Observable behaviour of one `generate_quiz` call: the returned
value or escaped exception, how many remote invocations were issued,
how many seconds were spent sleeping in backoff, and the payload sent
(if any). -/
structure RunResult where
  result : Except GenError Json
  attempts : Nat
  backoffSeconds : Nat
  sent : Option Payload

/-- Embedding of `generate_quiz` (lines 105–152).  `remote i` is the
outcome the remote call would produce on the `i`-th invocation.  The
code issues a single invocation: a rate-limit or other API failure
propagates immediately as an exception with no backoff sleep and no
retry, and a response text that fails `extract_json` propagates as a
parse exception. -/
def generate_quiz (req : GenRequest) (remote : Nat → CallOutcome) :
    RunResult :=
  match buildPrompt req with
  | none => ⟨.error .typeErr, 0, 0, none⟩
  | some p =>
    match remote 0 with
    | .rateLimit => ⟨.error .rateLimited, 1, 0, some p⟩
    | .apiFailure => ⟨.error .apiFailed, 1, 0, some p⟩
    | .ok t =>
      ⟨(match extract_json t with
        | some v => .ok v
        | none => .error .parseFailed), 1, 0, some p⟩

example :
    (generate_quiz
      ⟨"m".data, "t".data, 5, "Easy".data, .inputTopic, .noCtx, []⟩
      (fun _ => .ok "[1]".data)).result = .ok (Json.arr [Json.num 1]) := by
  rfl

/-!
The specification's description of JSON extraction (spec §4.1 step 4),
as a second definition to compare against the code's `extract_json`:
locate the first `[` and the last `]` and parse the inclusive
substring; only if no bracket pair exists, fall back to stripping the
markdown fence markers and parsing the remainder.
-/

/-- Index of the last occurrence of `c` in `t`, if any. -/
def lastIdxOf (c : Char) (t : List Char) : Option Nat :=
  (List.findIdx? (fun x => x = c) t.reverse).map (fun k => t.length - 1 - k)

/-- JSON extraction as the specification words it (spec §4.1 step 4);
compared against the code's `extract_json`. -/
def specJsonExtract (t : List Char) : Option Json :=
  match List.findIdx? (fun x => x = '[') t, lastIdxOf ']' t with
  | some i, some j =>
    if i ≤ j then parseJson ((t.drop i).take (j - i + 1))
    else parseJson (clean_response t)
  | _, _ => parseJson (clean_response t)

/-!
The data-model invariant of spec §3, as a decidable check on parsed
values: every returned record must satisfy
`correct_option ∈ keys(options)`.
-/

/-- Look up a key in an object's key/value list. -/
def lookupKey (kvs : List (String × Json)) (k : String) : Option Json :=
  (kvs.find? (fun kv => kv.1 == k)).map (fun kv => kv.2)

/-- Python `q[k]` on a parsed value: `none` is a raised
`KeyError`/`TypeError` (absent key or not a dict). -/
def pyGet (j : Json) (k : String) : Option Json :=
  match j with
  | .obj kvs => lookupKey kvs k
  | _ => none

/-- Python `q.get(k, d)`-style access with a default. -/
def pyGetD (j : Json) (k : String) (d : Json) : Json :=
  match pyGet j k with
  | some v => v
  | none => d

/-- Spec §3 invariant for one record: `correct_option` is a string
present among the keys of the `options` mapping. -/
def recordInvariantOk (q : Json) : Bool :=
  match pyGet q "correct_option", pyGet q "options" with
  | some (.str c), some (.obj kvs) => kvs.any (fun kv => kv.1 == c)
  | _, _ => false

/-- Spec §3 invariant for a whole generation result: a (JSON) array
each of whose records satisfies `recordInvariantOk`. -/
def questionsInvariantOk (v : Json) : Bool :=
  match v with
  | .arr qs => qs.all recordInvariantOk
  | _ => false

/-!
Embedding of the `Start Quiz` handler (lines 226–253 of `app.py`):
the try/except around `generate_quiz` and the session-state updates.
-/

/-- Keys of the `user_answers` dict: `int` indices while answering,
`str` indices after a round-trip through the JSON history file. -/
inductive PyKey where
  | intKey (n : Nat) : PyKey
  | strKey (s : List Char) : PyKey
deriving DecidableEq

/-- The relevant `st.session_state` fields. -/
structure Session where
  page : List Char
  quiz_data : Json
  user_answers : List (PyKey × List Char)
  current_index : Nat
  current_topic : List Char
  current_context : ContextData
  current_input_type : InputType
  current_difficulty : List Char
  current_model : List Char

/-- The four input-source radio choices of the home page. -/
inductive InputMethod where
  | geminiKnowledge : InputMethod
  | pasteText : InputMethod
  | uploadPdf : InputMethod
  | uploadImage : InputMethod
deriving DecidableEq

/-- Lines 232–237: choose `final_type`/`final_ctx` from the input
method, the (possibly empty, hence falsy) context text, and whether an
image was uploaded. -/
def finalTypeCtx (input_method : InputMethod) (context : Option (List Char))
    (img : Bool) : InputType × ContextData :=
  if input_method = .uploadImage ∧ img then (.inputImage, .imageCtx)
  else
    match context with
    | some c => if c.isEmpty then (.inputTopic, .noCtx) else (.inputTextPdf, .textCtx c)
    | none => (.inputTopic, .noCtx)

/-- Model of the rendered `f"Error: \x7be\x7d"` message for each
exception class that `generate_quiz` can raise. -/
def errText : GenError → List Char
  | .typeErr => "Error: TypeError".data
  | .rateLimited => "Error: 429 Resource exhausted".data
  | .apiFailed => "Error: API failure".data
  | .parseFailed => "Error: JSONDecodeError".data

/-- The `GenRequest` the handler passes to `generate_quiz`
(line 245; `previous_questions` defaults to the empty list). -/
def startReq (model_choice topic : List Char) (num : Nat)
    (diff : List Char) (input_method : InputMethod)
    (context : Option (List Char)) (img : Bool) : GenRequest :=
  let ft := finalTypeCtx input_method context img
  ⟨model_choice, topic, num, diff, ft.1, ft.2, []⟩

/-- Embedding of the `Start Quiz` click handler (lines 226–253):
validates the topic, stores the current-request fields, calls
`generate_quiz` inside try/except, and either moves to the quiz page
or renders the error message with the session kept alive.  Returns
the new session and the rendered error message, if any. -/
def startQuiz (sess : Session) (model_choice topic : List Char)
    (input_method : InputMethod) (context : Option (List Char)) (img : Bool)
    (diff : List Char) (num : Nat) (remote : Nat → CallOutcome) :
    Session × Option (List Char) :=
  if topic.isEmpty then (sess, some "Please enter a topic.".data)
  else
    let ft := finalTypeCtx input_method context img
    let sess1 := { sess with
      current_topic := topic
      current_input_type := ft.1
      current_context := ft.2
      current_difficulty := diff
      current_model := model_choice }
    match (generate_quiz (startReq model_choice topic num diff input_method context img) remote).result with
    | .ok data =>
      ({ sess1 with
          quiz_data := data
          user_answers := []
          current_index := 0
          page := "quiz".data }, none)
    | .error e => (sess1, some (errText e))

/-!
Embedding of `create_text_report` (lines 65–90 of `app.py`).  The
Python function reads the wall clock (`datetime.datetime.now()`) for
its `Date:` line; the embedding takes that rendered timestamp as the
explicit argument `now`.  A raised `KeyError` (missing `question`,
`options` or `correct_option`) is the result `none`.
-/

/-- Decimal rendering of an integer, as Python prints it. -/
def intRepr : Int → List Char
  | .ofNat m => (Nat.repr m).data
  | .negSucc m => "-".data ++ (Nat.repr (m + 1)).data

/-- Python `repr` of a parsed JSON value (string values quoted with
apostrophes), used for values interpolated inside containers; `fuel`
is the structural depth. -/
def pyRepr : Nat → Json → List Char
  | _, .null => "None".data
  | _, .bool true => "True".data
  | _, .bool false => "False".data
  | _, .num n => intRepr n
  | _, .str s => [apos] ++ s.data ++ [apos]
  | 0, .arr _ => []
  | 0, .obj _ => []
  | n + 1, .arr xs =>
    "[".data ++ List.intercalate ", ".data (xs.map (pyRepr n)) ++ "]".data
  | n + 1, .obj kvs =>
    "\x7b".data ++
    List.intercalate ", ".data (kvs.map (fun kv =>
      [apos] ++ kv.1.data ++ [apos] ++ ": ".data ++ pyRepr n kv.2)) ++
    "\x7d".data

/-- Python `str` of a parsed JSON value, as an f-string interpolates
it: a string renders as itself, everything else as its `repr`.
Container rendering is modelled exactly up to nesting depth 64 (quiz
records are flat; no claim depends on deeper values). -/
def pyStr (v : Json) : List Char :=
  match v with
  | .str s => s.data
  | v => pyRepr 64 v

/-- Python `d.get(k)` on the `user_answers` dict. -/
def pyDictGet (answers : List (PyKey × List Char)) (k : PyKey) :
    Option (List Char) :=
  ((answers.find? (fun kv => kv.1 == k)).map (fun kv => kv.2))

/-- Python `a or b` on optional answer strings: `None` and the empty
string are falsy. -/
def pyOr (a b : Option (List Char)) : Option (List Char) :=
  match a with
  | some s => if s.isEmpty then b else some s
  | none => b

/-- Line 74: `user_answers.get(i) or user_answers.get(str(i))`. -/
def ansLookup (answers : List (PyKey × List Char)) (i : Nat) :
    Option (List Char) :=
  pyOr (pyDictGet answers (.intKey i)) (pyDictGet answers (.strKey (Nat.repr i).data))

/-- Python `ans == correct`: a string answer equal to a string
`correct_option`; comparisons across types (or with `None`) are false. -/
def ansEqCorrect (a : Option (List Char)) (c : Json) : Bool :=
  match a, c with
  | some s, .str c' => String.mk s == c'
  | _, _ => false

/-- Python `opt == correct` for an option label against the
`correct_option` value. -/
def optEqCorrect (k : String) (c : Json) : Bool :=
  match c with
  | .str c' => k == c'
  | _ => false

/-- The rendered answer in the `WRONG` status line (`f"...\x7bans\x7d"`,
where `ans` may be `None`). -/
def ansDisplay : Option (List Char) → List Char
  | none => "None".data
  | some s => s

/-- Lines 80–83: one line per option, the correct one marked `-> `. -/
def optionsLines (kvs : List (String × Json)) (correct : Json) : List Char :=
  (kvs.map (fun kv =>
    (if optEqCorrect kv.1 correct then "-> ".data else "  ".data) ++
    kv.1.data ++ ": ".data ++ pyStr kv.2 ++ "\n".data)).flatten

/-- Lines 73–88: the report block for question `i`; `none` is a raised
`KeyError` (or `.items()` on a non-dict). -/
def questionBlock (i : Nat) (q : Json)
    (answers : List (PyKey × List Char)) : Option (List Char) := do
  let ans := ansLookup answers i
  let correct ← pyGet q "correct_option"
  let status :=
    if ansEqCorrect ans correct then "✅ CORRECT".data
    else "❌ WRONG (You chose ".data ++ ansDisplay ans ++ ")".data
  let qtext ← pyGet q "question"
  let opts ← pyGet q "options"
  match opts with
  | .obj kvs =>
    pure ("Q".data ++ (Nat.repr (i + 1)).data ++ ": ".data ++ pyStr qtext ++
      "\n".data ++
      "------------------------------------------------\n".data ++
      optionsLines kvs correct ++
      "\nRESULT: ".data ++ status ++ "\n".data ++
      "EXPLANATION: ".data ++ pyStr (pyGetD q "explanation" (Json.str "N/A")) ++
      "\n".data ++
      "EXTRA EDGE: ".data ++ pyStr (pyGetD q "extra_edge" (Json.str "N/A")) ++
      "\n".data ++
      List.replicate 60 '=' ++ "\n\n".data)
  | _ => none

/-- The `for i, q in enumerate(questions)` loop of lines 73–88. -/
def reportBody (i : Nat) (questions : List Json)
    (answers : List (PyKey × List Char)) : Option (List Char) :=
  match questions with
  | [] => some []
  | q :: rest => do
    let b ← questionBlock i q answers
    let r ← reportBody (i + 1) rest answers
    pure (b ++ r)

/-- The report text before the interpolated date (lines 67–69). -/
def reportPre (topic : List Char) : List Char :=
  "🎓 QUIZ MASTER REPORT\n".data ++ "Topic: ".data ++ topic ++ "\n".data ++
  "Date: ".data

/-- The report text between the date and the per-question blocks
(lines 69–71). -/
def reportMid (score total : Nat) : List Char :=
  "\n".data ++ "Final Score: ".data ++ (Nat.repr score).data ++ "/".data ++
  (Nat.repr total).data ++ "\n".data ++ List.replicate 60 '=' ++ "\n\n".data

/-- Embedding of `create_text_report` (lines 65–90), with the rendered
`datetime.datetime.now()` timestamp as the explicit argument `now`. -/
def create_text_report (topic : List Char) (score total : Nat)
    (questions : List Json) (user_answers : List (PyKey × List Char))
    (now : List Char) : Option (List Char) :=
  match reportBody 0 questions user_answers with
  | none => none
  | some b => some (reportPre topic ++ now ++ reportMid score total ++ b)

/-!
Embedding of `load_history` (lines 41–48 of `app.py`).  The
filesystem state at `HISTORY_FILE` is: absent, present but unreadable
(open or read raises), or present with contents.
-/

/-- State of the filesystem at `quiz_history.json`. -/
inductive FSState where
  | absent : FSState
  | unreadable : FSState
  | contents (s : List Char) : FSState

/-- Embedding of `load_history`: the parsed JSON value when the file
exists and parses, the empty list when it is absent, and the empty
list when reading or parsing raises (the bare `except`). -/
def load_history (fs : FSState) : Json :=
  match fs with
  | .absent => Json.arr []
  | .unreadable => Json.arr []
  | .contents s =>
    match parseJson s with
    | some v => v
    | none => Json.arr []

/-- The backtick character, written via its code point. -/
def btick : Char := Char.ofNat 96

/-- Whether `pat` occurs as a contiguous subsequence of `s`. -/
def containsSeq (pat : List Char) : List Char → Bool
  | [] => List.isPrefixOf pat []
  | c :: r => List.isPrefixOf pat (c :: r) || containsSeq pat r

/-!
Concrete inputs used by witnesses and counterexamples.
-/

/-- A remote oracle that reports a rate-limit failure on every call. -/
def remoteRL : Nat → CallOutcome := fun _ => .rateLimit

/-- A small knowledge-mode request. -/
def reqTopic : GenRequest :=
  ⟨"m".data, "t".data, 5, "Easy".data, .inputTopic, .noCtx, []⟩

/-- A text-mode request whose context exceeds the truncation bound. -/
def reqLongCtx : GenRequest :=
  ⟨"m".data, "t".data, 5, "Easy".data, .inputTextPdf,
    .textCtx (List.replicate 15001 'a'), []⟩

/-- Eighty pairwise distinct one-character prior questions. -/
def prevW : List (List Char) := (List.range 80).map (fun n => [Char.ofNat (65 + n)])

/-- A request carrying the eighty prior questions of `prevW`. -/
def reqPrev : GenRequest :=
  ⟨"m".data, "t".data, 10, "Hard".data, .inputTopic, .noCtx, prevW⟩

/-- Response text carrying a record whose `correct_option` is not an
`options` key. -/
def badRecordText : List Char :=
  "[\x7b\"question\": \"q\", \"options\": \x7b\"A\": \"x\"\x7d, \"correct_option\": \"B\"\x7d]".data

/-- The parsed value of `badRecordText`. -/
def badRecordVal : Json :=
  Json.arr [Json.obj [("question", Json.str "q"),
    ("options", Json.obj [("A", Json.str "x")]),
    ("correct_option", Json.str "B")]]

/-- The spec's §8 example response: prose preamble plus a fenced array. -/
def proseFencedText : List Char :=
  "Sure! ```json\n[\x7b\"question\": \"Q1\", \"options\": \x7b\"A\": \"x\", \"B\": \"y\"\x7d, \"correct_option\": \"A\"\x7d]\n```".data

/-- A response whose JSON array is surrounded by prose, with the
array well bracketed. -/
def proseArrayText : List Char := "see [1, 2] ok".data

/-- A serialized JSON array whose single element is the string of
three backticks (written via code points). -/
def backtickArrayText : List Char :=
  ['[', '"', btick, btick, btick, '"', ']']

/-- An initial session as set up by lines 155–165. -/
def sess0 : Session :=
  ⟨"home".data, Json.arr [], [], 0, [], .noCtx, .inputTopic,
    "Medium".data, "models/gemini-1.5-flash-latest".data⟩

/-- A one-question quiz record used by the report counterexample. -/
def reportQs : List Json :=
  [Json.obj [("question", Json.str "q"),
    ("options", Json.obj [("A", Json.str "x"), ("B", Json.str "y")]),
    ("correct_option", Json.str "A")]]

/-- The answer dict for the report counterexample. -/
def reportAns : List (PyKey × List Char) := [(.intKey 0, "A".data)]

/-- A remote oracle answering `[1]` on every call. -/
def remoteOk1 : Nat → CallOutcome := fun _ => .ok "[1]".data

/-- A remote oracle answering `badRecordText` on every call. -/
def remoteBad : Nat → CallOutcome := fun _ => .ok badRecordText

/-!
Lemmas about `pyReplace`/`pyStrip`, used to characterise
`clean_response` on fenced and unfenced response texts.
-/

theorem isPrefixOf_iff_ex :
    ∀ (a b : List Char), List.isPrefixOf a b = true ↔ ∃ t, b = a ++ t := by
  intro a
  induction a with
  | nil =>
    intro b
    simp [List.isPrefixOf]
  | cons c a' ih =>
    intro b
    cases b with
    | nil => simp [List.isPrefixOf]
    | cons d b' =>
      simp only [List.isPrefixOf, Bool.and_eq_true, beq_iff_eq, ih,
        List.cons_append, List.cons.injEq]
      constructor
      · rintro ⟨h1, t, h2⟩
        exact ⟨t, h1.symm, h2⟩
      · rintro ⟨t, h1, h2⟩
        exact ⟨h1.symm, t, h2⟩

theorem replaceAux_skip (pat rep : List Char) :
    ∀ (x t : List Char),
      replaceAux pat rep (x ++ t) x.length = replaceAux pat rep t 0 := by
  intro x
  induction x with
  | nil => intro t; rfl
  | cons c x' ih => intro t; exact ih t

theorem replaceAux_matched (pat rep t : List Char) (hp : pat ≠ []) :
    replaceAux pat rep (pat ++ t) 0 = rep ++ replaceAux pat rep t 0 := by
  cases pat with
  | nil => exact absurd rfl hp
  | cons p ps =>
    show replaceAux (p :: ps) rep (p :: (ps ++ t)) 0 = _
    rw [replaceAux]
    rw [if_pos]
    · have hl : (p :: ps).length - 1 = ps.length := by simp
      rw [hl, replaceAux_skip]
    · exact (isPrefixOf_iff_ex (p :: ps) (p :: (ps ++ t))).mpr ⟨t, by simp⟩

theorem replaceAux_across (p : Char) (ps rep : List Char) :
    ∀ (a t : List Char), p ∉ a →
      replaceAux (p :: ps) rep (a ++ t) 0 =
        a ++ replaceAux (p :: ps) rep t 0 := by
  intro a
  induction a with
  | nil => intro t _; rfl
  | cons c a' ih =>
    intro t hm
    have hpc : p ≠ c := fun h => hm (h ▸ List.mem_cons_self c a')
    have hpre : List.isPrefixOf (p :: ps) (c :: (a' ++ t)) = false := by
      simp [List.isPrefixOf, hpc]
    show replaceAux (p :: ps) rep (c :: (a' ++ t)) 0 = _
    rw [replaceAux, if_neg (by simp [hpre]), ih t (fun h => hm (List.mem_cons_of_mem c h))]
    rfl

theorem replaceAux_no_occ (pat rep : List Char) :
    ∀ (s : List Char), containsSeq pat s = false →
      replaceAux pat rep s 0 = s := by
  intro s
  induction s with
  | nil => intro _; rfl
  | cons c r ih =>
    intro h
    have h2 : List.isPrefixOf pat (c :: r) = false ∧ containsSeq pat r = false := by
      have := h
      simp only [containsSeq, Bool.or_eq_false_iff] at this
      exact this
    rw [replaceAux, if_neg (by simp [h2.1]), ih h2.2]

theorem containsSeq_of_sub (p q : List Char)
    (hpq : List.isPrefixOf p q = true) :
    ∀ (s : List Char), containsSeq q s = true → containsSeq p s = true := by
  intro s
  induction s with
  | nil =>
    intro h
    cases q with
    | nil =>
      cases p with
      | nil => exact h
      | cons a b => simp [List.isPrefixOf] at hpq
    | cons a b => simp [containsSeq, List.isPrefixOf] at h
  | cons c r ih =>
    intro h
    simp only [containsSeq, Bool.or_eq_true] at h ⊢
    cases h with
    | inl h =>
      left
      obtain ⟨t, ht⟩ := (isPrefixOf_iff_ex q (c :: r)).mp h
      obtain ⟨u, hu⟩ := (isPrefixOf_iff_ex p q).mp hpq
      exact (isPrefixOf_iff_ex p (c :: r)).mpr ⟨u ++ t, by rw [ht, hu, List.append_assoc]⟩
    | inr h => right; exact ih h

theorem dropWhile_append_all (p : Char → Bool) :
    ∀ (a t : List Char), (∀ c ∈ a, p c = true) →
      List.dropWhile p (a ++ t) = List.dropWhile p t := by
  intro a
  induction a with
  | nil => intro t _; rfl
  | cons c a' ih =>
    intro t h
    have hc : p c = true := h c (List.mem_cons_self c a')
    rw [List.cons_append, List.dropWhile_cons_of_pos hc]
    exact ih t (fun x hx => h x (List.mem_cons_of_mem c hx))

theorem dropWhile_append_split (p : Char → Bool) :
    ∀ (s b : List Char),
      List.dropWhile p (s ++ b) =
        if (List.dropWhile p s).isEmpty then List.dropWhile p b
        else List.dropWhile p s ++ b := by
  intro s
  induction s with
  | nil => intro b; simp
  | cons c s' ih =>
    intro b
    cases hpc : p c with
    | true =>
      rw [List.cons_append, List.dropWhile_cons_of_pos hpc,
        List.dropWhile_cons_of_pos hpc, ih b]
    | false =>
      rw [List.cons_append, List.dropWhile_cons_of_neg (by simp [hpc]),
        List.dropWhile_cons_of_neg (by simp [hpc])]
      simp

theorem pyStrip_wrap (a s b : List Char)
    (ha : ∀ c ∈ a, isPySpace c = true) (hb : ∀ c ∈ b, isPySpace c = true) :
    pyStrip ((a ++ s) ++ b) = pyStrip s := by
  unfold pyStrip
  rw [List.append_assoc, dropWhile_append_all isPySpace a (s ++ b) ha,
    dropWhile_append_split isPySpace s b]
  cases hcase : List.dropWhile isPySpace s with
  | nil =>
    have hbnil : List.dropWhile isPySpace b = [] := by
      have := dropWhile_append_all isPySpace b [] hb
      simpa using this
    simp [hbnil]
  | cons x xs =>
    rw [if_neg (by simp)]
    rw [List.reverse_append]
    rw [dropWhile_append_all isPySpace b.reverse (x :: xs).reverse
      (fun c hc => hb c (List.mem_reverse.mp hc))]

theorem clean_response_id (s : List Char)
    (h1 : containsSeq "```".data s = false) (h2 : pyStrip s = s) :
    clean_response s = s := by
  have h3 : containsSeq "```json".data s = false := by
    cases hq : containsSeq "```json".data s with
    | false => rfl
    | true =>
      have := containsSeq_of_sub "```".data "```json".data (by rfl) s hq
      rw [this] at h1
      exact absurd h1 (by simp)
  unfold clean_response pyReplace
  rw [replaceAux_no_occ _ _ s h3, replaceAux_no_occ _ _ s h1, h2]

theorem clean_response_fenced (s : List Char) (h1 : btick ∉ s) :
    clean_response (("```json\n".data ++ s) ++ "\n```".data) = pyStrip s := by
  have hnomem : btick ∉ ("\n".data ++ s) := by
    intro hm
    cases List.mem_append.mp hm with
    | inl h =>
      rw [List.mem_singleton] at h
      exact absurd h (by decide)
    | inr h => exact h1 h
  have hnomem2 : btick ∉ (("\n".data ++ s) ++ "\n".data) := by
    intro hm
    cases List.mem_append.mp hm with
    | inl h => exact hnomem h
    | inr h =>
      rw [List.mem_singleton] at h
      exact absurd h (by decide)
  have step1 : pyReplace "```json".data []
      (("```json\n".data ++ s) ++ "\n```".data) =
      ("\n".data ++ s) ++ "\n```".data := by
    unfold pyReplace
    have e1 : ("```json\n".data ++ s) ++ "\n```".data =
        "```json".data ++ (("\n".data ++ s) ++ "\n```".data) := by
      simp [List.append_assoc]
    rw [e1, replaceAux_matched "```json".data []
      (("\n".data ++ s) ++ "\n```".data) (by decide), List.nil_append]
    have e2 : "```json".data = btick :: "``json".data := by rfl
    rw [e2, replaceAux_across btick "``json".data []
      ("\n".data ++ s) "\n```".data hnomem]
    have e3 : replaceAux (btick :: "``json".data) [] "\n```".data 0 =
        "\n```".data := by rfl
    rw [e3]
  have step2 : pyReplace "```".data [] (("\n".data ++ s) ++ "\n```".data) =
      ("\n".data ++ s) ++ "\n".data := by
    unfold pyReplace
    have e4 : ("\n".data ++ s) ++ "\n```".data =
        (("\n".data ++ s) ++ "\n".data) ++ (btick :: "``".data) := by
      simp [List.append_assoc]
      rfl
    rw [e4]
    have e5 : "```".data = btick :: "``".data := by rfl
    rw [e5, replaceAux_across btick "``".data []
      (("\n".data ++ s) ++ "\n".data) (btick :: "``".data) hnomem2]
    have e6 : replaceAux (btick :: "``".data) [] (btick :: "``".data) 0 =
        [] := by rfl
    rw [e6, List.append_nil]
  show pyStrip (pyReplace "```".data [] (pyReplace "```json".data [] _)) = _
  rw [step1, step2]
  exact pyStrip_wrap "\n".data s "\n".data (by decide) (by decide)

/-- The payload recorded as sent is exactly the built prompt,
whatever the remote outcome. -/
theorem generate_quiz_sent (req : GenRequest) (remote : Nat → CallOutcome) :
    (generate_quiz req remote).sent = buildPrompt req := by
  unfold generate_quiz
  cases buildPrompt req with
  | none => rfl
  | some p =>
    cases remote 0 with
    | ok t => rfl
    | rateLimit => rfl
    | apiFailure => rfl

/-- C6: for every text-mode generation request whose context exceeds
15000 characters, the context embedded in the outbound prompt is the
15000-character prefix of the context followed by the `...` truncation
marker, the embedded slice has length at most 15000 and is a prefix of
the context, and the truncation is already applied in the payload
recorded as sent to the remote call. -/
theorem c6_context_truncated (req : GenRequest) (remote : Nat → CallOutcome)
    (c : List Char) (h1 : req.input_type = .inputTextPdf)
    (h2 : req.context_data = .textCtx c) (h3 : 15000 < c.length) :
    (∃ pre post,
      (generate_quiz req remote).sent =
        some ⟨(pre ++ ("\n\nContext:\n".data ++ (c.take 15000 ++ "...".data))) ++ post,
          false⟩) ∧
    (c.take 15000).length ≤ 15000 ∧ c.take 15000 <+: c := by
  have hne : c.isEmpty = false := by
    cases c with
    | nil => simp at h3
    | cons x xs => rfl
  have hctx : ctxAddition req.input_type req.context_data =
      some ("\n\nContext:\n".data ++ c.take 15000 ++ "...".data) := by
    rw [h1, h2]
    simp [ctxAddition, ctxTruthy, hne]
  have hbp : buildPrompt req =
      some ⟨promptCore req ++ ("\n\nContext:\n".data ++ c.take 15000 ++ "...".data) ++
        jsonStructureBlock,
        decide (req.input_type = .inputImage) && ctxTruthy req.context_data⟩ := by
    rw [buildPrompt, hctx]
    rfl
  refine ⟨⟨promptCore req, jsonStructureBlock, ?_⟩, ?_, ?_⟩
  · rw [generate_quiz_sent, hbp]
    simp only [Option.some.injEq, Payload.mk.injEq]
    constructor
    · simp [List.append_assoc]
    · simp [h1, h2, ctxTruthy, hne]
  · rw [List.length_take]
    exact Nat.min_le_left _ _
  · exact ⟨c.drop 15000, List.take_append_drop 15000 c⟩

/-- C6 witness: a concrete 15001-character context is truncated. -/
theorem c6_context_truncated_witness :
    reqLongCtx.input_type = .inputTextPdf ∧
    reqLongCtx.context_data = .textCtx (List.replicate 15001 'a') ∧
    15000 < (List.replicate 15001 'a').length ∧
    ((∃ pre post,
      (generate_quiz reqLongCtx remoteRL).sent =
        some ⟨(pre ++ ("\n\nContext:\n".data ++
          ((List.replicate 15001 'a').take 15000 ++ "...".data))) ++ post,
          false⟩) ∧
    ((List.replicate 15001 'a').take 15000).length ≤ 15000 ∧
    (List.replicate 15001 'a').take 15000 <+: List.replicate 15001 'a') :=
  ⟨rfl, rfl, by rw [List.length_replicate]; exact Nat.lt_succ_self 15000,
    c6_context_truncated reqLongCtx remoteRL (List.replicate 15001 'a')
      rfl rfl (by rw [List.length_replicate]; exact Nat.lt_succ_self 15000)⟩

/-- C7: for a request carrying 80 pairwise distinct prior questions,
the exclusion list embedded in the constructed prompt is exactly the
last 50 of them — the slice taken is `previous_questions.drop 30`,
none of the first 30 is in it, and the prompt text contains the
exclusion header followed by those 50 questions joined by newlines. -/
theorem c7_exclusion_last50 (req : GenRequest) (remote : Nat → CallOutcome)
    (h1 : req.previous_questions.length = 80)
    (h2 : req.previous_questions.Nodup)
    (h3 : (buildPrompt req).isSome = true) :
    pySliceLast 50 req.previous_questions = req.previous_questions.drop 30 ∧
    (∀ q ∈ req.previous_questions.take 30,
      q ∉ pySliceLast 50 req.previous_questions) ∧
    ∃ pre post p, buildPrompt req = some p ∧
      (generate_quiz req remote).sent = some p ∧
      p.text = (pre ++ ("\n\nIMPORTANT: Do NOT repeat the following questions:\n".data ++
        (List.intercalate "\n".data (pySliceLast 50 req.previous_questions) ++
          "\n".data))) ++ post := by
  have hslice : pySliceLast 50 req.previous_questions =
      req.previous_questions.drop 30 := by
    rw [pySliceLast, h1]
  have hne : req.previous_questions.isEmpty = false := by
    cases hc : req.previous_questions with
    | nil => rw [hc] at h1; simp at h1
    | cons x xs => rfl
  have hdisj : ∀ q ∈ req.previous_questions.take 30,
      q ∉ pySliceLast 50 req.previous_questions := by
    rw [hslice]
    have hsplit := (List.take_append_drop 30 req.previous_questions).symm
    rw [hsplit] at h2
    intro q hq hq'
    exact (List.nodup_append.mp h2).2.2 hq hq'
  obtain ⟨add, hadd⟩ : ∃ add,
      ctxAddition req.input_type req.context_data = some add := by
    cases hc : ctxAddition req.input_type req.context_data with
    | none => rw [buildPrompt, hc] at h3; simp at h3
    | some a => exact ⟨a, rfl⟩
  have hbp : buildPrompt req =
      some ⟨promptCore req ++ add ++ jsonStructureBlock,
        decide (req.input_type = .inputImage) && ctxTruthy req.context_data⟩ := by
    rw [buildPrompt, hadd]
    rfl
  refine ⟨hslice, hdisj,
    basePrompt req.difficulty req.num req.topic, add ++ jsonStructureBlock,
    _, hbp, by rw [generate_quiz_sent, hbp], ?_⟩
  show promptCore req ++ add ++ jsonStructureBlock = _
  simp only [promptCore, hne, Bool.false_eq_true, if_false]
  simp [exclusionBlock, List.append_assoc]

/-- C7 witness: with 80 concrete distinct prior questions, exactly
the last 50 form the exclusion list in the prompt. -/
theorem c7_exclusion_last50_witness :
    prevW.length = 80 ∧ prevW.Nodup ∧ (buildPrompt reqPrev).isSome = true ∧
    (pySliceLast 50 reqPrev.previous_questions =
      reqPrev.previous_questions.drop 30 ∧
    (∀ q ∈ reqPrev.previous_questions.take 30,
      q ∉ pySliceLast 50 reqPrev.previous_questions) ∧
    ∃ pre post p, buildPrompt reqPrev = some p ∧
      (generate_quiz reqPrev remoteRL).sent = some p ∧
      p.text = (pre ++ ("\n\nIMPORTANT: Do NOT repeat the following questions:\n".data ++
        (List.intercalate "\n".data (pySliceLast 50 reqPrev.previous_questions) ++
          "\n".data))) ++ post) :=
  ⟨by decide, by decide, rfl,
    c7_exclusion_last50 reqPrev remoteRL (by decide) (by decide) rfl⟩

/-- C1 counterexample: with the remote call failing rate-limited on
every invocation, `generate_quiz` issues exactly one attempt, sleeps
zero seconds of backoff, and propagates the rate-limit exception — it
does not run a bounded loop of 3 attempts with 10-second waits, and it
does not return a converted quota-exceeded result. -/
theorem c1_counterexample :
    (generate_quiz reqTopic remoteRL).attempts = 1 ∧
    (generate_quiz reqTopic remoteRL).backoffSeconds = 0 ∧
    (generate_quiz reqTopic remoteRL).result = .error .rateLimited ∧
    ¬ (generate_quiz reqTopic remoteRL).attempts = 3 := by
  refine ⟨rfl, rfl, rfl, ?_⟩
  intro h
  have h1 : (generate_quiz reqTopic remoteRL).attempts = 1 := rfl
  rw [h1] at h
  exact absurd h (by decide)

/-- C1 amended: on a rate-limit failure of the remote call,
`generate_quiz` performs exactly one invocation, waits no backoff, and
the rate-limit exception propagates to the caller; there is no retry
loop. -/
theorem c1_no_retry (req : GenRequest) (remote : Nat → CallOutcome)
    (h1 : (buildPrompt req).isSome = true) (h2 : remote 0 = .rateLimit) :
    (generate_quiz req remote).result = .error .rateLimited ∧
    (generate_quiz req remote).attempts = 1 ∧
    (generate_quiz req remote).backoffSeconds = 0 := by
  obtain ⟨p, hp⟩ : ∃ p, buildPrompt req = some p := by
    cases hb : buildPrompt req with
    | none => rw [hb] at h1; simp at h1
    | some p => exact ⟨p, rfl⟩
  unfold generate_quiz
  rw [hp, h2]
  exact ⟨rfl, rfl, rfl⟩

/-- C1 witness for the amended statement, at a concrete request and an
always-rate-limited oracle. -/
theorem c1_no_retry_witness :
    (buildPrompt reqTopic).isSome = true ∧ remoteRL 0 = .rateLimit ∧
    ((generate_quiz reqTopic remoteRL).result = .error .rateLimited ∧
     (generate_quiz reqTopic remoteRL).attempts = 1 ∧
     (generate_quiz reqTopic remoteRL).backoffSeconds = 0) :=
  ⟨rfl, rfl, c1_no_retry reqTopic remoteRL rfl rfl⟩

/-- C2 counterexample: on a response whose JSON array is surrounded by
prose, the code's extraction is a parse failure while the claimed
first-bracket/last-bracket extraction recovers the array — so the
code's extraction does not locate bracket pairs. -/
theorem c2_counterexample :
    extract_json proseArrayText = none ∧
    specJsonExtract proseArrayText = some (Json.arr [Json.num 1, Json.num 2]) ∧
    specJsonExtract proseArrayText ≠ extract_json proseArrayText := by
  refine ⟨rfl, rfl, ?_⟩
  intro h
  have h1 : specJsonExtract proseArrayText =
      some (Json.arr [Json.num 1, Json.num 2]) := rfl
  have h2 : extract_json proseArrayText = none := rfl
  rw [h1, h2] at h
  exact Option.noConfusion h

/-- C2 amended: extraction strips the markdown fence markers and trims
whitespace, then parses the remainder with `json.loads`; that single
strategy decides the call — success returns the parsed value, failure
is the call's parse failure.  No bracket-pair location step exists. -/
theorem c2_fence_strip_only (req : GenRequest) (remote : Nat → CallOutcome)
    (t : List Char)
    (h1 : (buildPrompt req).isSome = true) (h2 : remote 0 = .ok t) :
    (generate_quiz req remote).result =
      (match parseJson (clean_response t) with
       | some v => Except.ok v
       | none => Except.error GenError.parseFailed) := by
  obtain ⟨p, hp⟩ : ∃ p, buildPrompt req = some p := by
    cases hb : buildPrompt req with
    | none => rw [hb] at h1; simp at h1
    | some p => exact ⟨p, rfl⟩
  unfold generate_quiz
  rw [hp, h2]
  rfl

/-- C2 witness for the amended statement. -/
theorem c2_fence_strip_only_witness :
    (buildPrompt reqTopic).isSome = true ∧ remoteOk1 0 = .ok "[1]".data ∧
    (generate_quiz reqTopic remoteOk1).result =
      (match parseJson (clean_response "[1]".data) with
       | some v => Except.ok v
       | none => Except.error GenError.parseFailed) :=
  ⟨rfl, rfl, c2_fence_strip_only reqTopic remoteOk1 "[1]".data rfl rfl⟩

/-- C3 counterexample: for the rate-limit failure case the engine does
not convert the failure into an explicit result value — the exception
crosses `generate_quiz`'s boundary (its outcome is an error, not a
returned value). -/
theorem c3_counterexample :
    (generate_quiz reqTopic remoteRL).result = .error .rateLimited ∧
    ∀ v : Json, (generate_quiz reqTopic remoteRL).result ≠ .ok v := by
  refine ⟨rfl, ?_⟩
  intro v h
  have h1 : (generate_quiz reqTopic remoteRL).result = .error .rateLimited := rfl
  rw [h1] at h
  exact Except.noConfusion h

/-- C3 amended: every failure of `generate_quiz` propagates as an
exception to the `Start Quiz` handler, whose try/except converts it
into a rendered error message while keeping the session alive: the
page and the quiz data are unchanged. -/
theorem c3_handler_catches (sess : Session) (model_choice topic : List Char)
    (input_method : InputMethod) (context : Option (List Char)) (img : Bool)
    (diff : List Char) (num : Nat) (remote : Nat → CallOutcome) (e : GenError)
    (h1 : topic.isEmpty = false)
    (h2 : (generate_quiz (startReq model_choice topic num diff input_method context img)
      remote).result = .error e) :
    (startQuiz sess model_choice topic input_method context img diff num remote).1.page =
      sess.page ∧
    (startQuiz sess model_choice topic input_method context img diff num remote).1.quiz_data =
      sess.quiz_data ∧
    (startQuiz sess model_choice topic input_method context img diff num remote).2 =
      some (errText e) := by
  unfold startQuiz
  rw [if_neg (by simp [h1]), h2]
  exact ⟨rfl, rfl, rfl⟩

/-- C3 witness for the amended statement: a concrete rate-limited run
leaves the home page and the quiz data untouched and renders the
error text. -/
theorem c3_handler_catches_witness :
    ("t".data).isEmpty = false ∧
    (generate_quiz (startReq "m".data "t".data 5 "Easy".data .geminiKnowledge none false)
      remoteRL).result = .error .rateLimited ∧
    ((startQuiz sess0 "m".data "t".data .geminiKnowledge none false "Easy".data 5 remoteRL).1.page =
      sess0.page ∧
    (startQuiz sess0 "m".data "t".data .geminiKnowledge none false "Easy".data 5 remoteRL).1.quiz_data =
      sess0.quiz_data ∧
    (startQuiz sess0 "m".data "t".data .geminiKnowledge none false "Easy".data 5 remoteRL).2 =
      some (errText .rateLimited)) :=
  ⟨rfl, rfl,
    c3_handler_catches sess0 "m".data "t".data .geminiKnowledge none false
      "Easy".data 5 remoteRL .rateLimited rfl rfl⟩

/-- C4 counterexample: `generate_quiz` returns, as a success, a parsed
record whose `correct_option` (`"B"`) is absent from the keys of its
`options` mapping (`{"A"}`) — the invariant is not enforced. -/
theorem c4_counterexample :
    (generate_quiz reqTopic remoteBad).result = .ok badRecordVal ∧
    questionsInvariantOk badRecordVal = false :=
  ⟨rfl, rfl⟩

/-- C4 amended: `generate_quiz` returns the parsed JSON value exactly
as parsed, with no validation of shape, emptiness, or the
`correct_option ∈ keys(options)` invariant. -/
theorem c4_no_validation (req : GenRequest) (remote : Nat → CallOutcome)
    (t : List Char) (v : Json)
    (h1 : (buildPrompt req).isSome = true) (h2 : remote 0 = .ok t)
    (h3 : extract_json t = some v) :
    (generate_quiz req remote).result = .ok v := by
  obtain ⟨p, hp⟩ : ∃ p, buildPrompt req = some p := by
    cases hb : buildPrompt req with
    | none => rw [hb] at h1; simp at h1
    | some p => exact ⟨p, rfl⟩
  unfold generate_quiz
  rw [hp, h2]
  show (match extract_json t with
    | some v => Except.ok v
    | none => Except.error GenError.parseFailed) = Except.ok v
  rw [h3]

/-- C4 witness for the amended statement: the invariant-violating
record is passed through unvalidated. -/
theorem c4_no_validation_witness :
    (buildPrompt reqTopic).isSome = true ∧ remoteBad 0 = .ok badRecordText ∧
    extract_json badRecordText = some badRecordVal ∧
    (generate_quiz reqTopic remoteBad).result = .ok badRecordVal :=
  ⟨rfl, rfl, rfl,
    c4_no_validation reqTopic remoteBad badRecordText badRecordVal rfl rfl rfl⟩

/-- C5 counterexample: on the spec's own example — a `Sure!` prose
preamble followed by a fenced JSON array — the code's extraction is a
parse failure (the prose is not removed), even though the array is
recoverable by bracket search. -/
theorem c5_counterexample :
    extract_json proseFencedText = none ∧
    specJsonExtract proseFencedText =
      some (Json.arr [Json.obj [("question", Json.str "Q1"),
        ("options", Json.obj [("A", Json.str "x"), ("B", Json.str "y")]),
        ("correct_option", Json.str "A")]]) :=
  ⟨rfl, rfl⟩

/-- C5 amended: extraction recovers the array from a response wrapped
in the markdown fences alone — for any array text without backticks
and without surrounding whitespace, the fence-wrapped response parses
to exactly that array; responses with non-whitespace prose outside
the array are parse failures instead. -/
theorem c5_fenced_recovery (s : List Char) (a : List Json)
    (h1 : btick ∉ s) (h2 : pyStrip s = s)
    (h3 : parseJson s = some (Json.arr a)) :
    extract_json (("```json\n".data ++ s) ++ "\n```".data) =
      some (Json.arr a) := by
  unfold extract_json
  rw [clean_response_fenced s h1, h2, h3]

/-- C5 witness for the amended statement. -/
theorem c5_fenced_recovery_witness :
    btick ∉ "[1, 2]".data ∧ pyStrip "[1, 2]".data = "[1, 2]".data ∧
    parseJson "[1, 2]".data = some (Json.arr [Json.num 1, Json.num 2]) ∧
    extract_json (("```json\n".data ++ "[1, 2]".data) ++ "\n```".data) =
      some (Json.arr [Json.num 1, Json.num 2]) :=
  ⟨by decide, rfl, rfl,
    c5_fenced_recovery "[1, 2]".data [Json.num 1, Json.num 2] (by decide) rfl rfl⟩

/-- C8 counterexample: extraction is not the identity on every
serialized JSON array — for the array `["` ``` `"]` (one string of
three backticks) the fence-replacement deletes the backticks inside
the string literal, so extraction yields a different array. -/
theorem c8_counterexample :
    parseJson backtickArrayText = some (Json.arr [Json.str "```"]) ∧
    extract_json backtickArrayText = some (Json.arr [Json.str ""]) ∧
    extract_json backtickArrayText ≠ parseJson backtickArrayText := by
  refine ⟨rfl, rfl, ?_⟩
  intro h
  have h1 : parseJson backtickArrayText = some (Json.arr [Json.str "```"]) := rfl
  have h2 : extract_json backtickArrayText = some (Json.arr [Json.str ""]) := rfl
  rw [h1, h2] at h
  injection h with h3
  injection h3 with h4
  injection h4 with h5 h6
  injection h5 with h7
  exact absurd h7 (by decide)

/-- C8 amended: extraction is the identity on a serialized JSON array
whose text contains no ``` ``` ``` fence marker and no surrounding
whitespace: cleaning leaves the text unchanged and extraction yields
exactly the array it denotes. -/
theorem c8_identity_no_fences (s : List Char) (a : List Json)
    (h1 : containsSeq "```".data s = false) (h2 : pyStrip s = s)
    (h3 : parseJson s = some (Json.arr a)) :
    clean_response s = s ∧ extract_json s = some (Json.arr a) := by
  have hc := clean_response_id s h1 h2
  refine ⟨hc, ?_⟩
  unfold extract_json
  rw [hc, h3]

/-- C8 witness for the amended statement. -/
theorem c8_identity_no_fences_witness :
    containsSeq "```".data "[3]".data = false ∧
    pyStrip "[3]".data = "[3]".data ∧
    parseJson "[3]".data = some (Json.arr [Json.num 3]) ∧
    (clean_response "[3]".data = "[3]".data ∧
     extract_json "[3]".data = some (Json.arr [Json.num 3])) :=
  ⟨rfl, rfl, rfl,
    c8_identity_no_fences "[3]".data [Json.num 3] rfl rfl rfl⟩

/-- C9 counterexample: the report generator is not a pure function of
(topic, score, total, questions, answers) alone — two invocations with
identical inputs but different wall-clock timestamps produce different
report texts, because the current time is interpolated into the
`Date:` line. -/
theorem c9_counterexample :
    create_text_report "t".data 1 1 reportQs reportAns "2026-01-01 10:00".data ≠
      create_text_report "t".data 1 1 reportQs reportAns "2026-01-01 10:01".data := by
  decide

/-- C9 amended: the report is a deterministic function of its inputs
together with the rendered timestamp — two successful renderings on
the same inputs are equal exactly when their timestamps are, the
timestamp being embedded verbatim in the `Date:` line. -/
theorem c9_deterministic_given_time (topic : List Char) (score total : Nat)
    (questions : List Json) (user_answers : List (PyKey × List Char))
    (t t' r r' : List Char)
    (h1 : create_text_report topic score total questions user_answers t = some r)
    (h2 : create_text_report topic score total questions user_answers t' = some r') :
    r = r' ↔ t = t' := by
  unfold create_text_report at h1 h2
  cases hb : reportBody 0 questions user_answers with
  | none =>
    rw [hb] at h1
    exact Option.noConfusion h1
  | some b =>
    rw [hb] at h1 h2
    injection h1 with e1
    injection h2 with e2
    rw [← e1, ← e2]
    constructor
    · intro h
      have s1 := List.append_cancel_right h
      have s2 := List.append_cancel_right s1
      exact List.append_cancel_left s2
    · intro h
      rw [h]

/-- C9 witness for the amended statement, on the empty quiz. -/
theorem c9_deterministic_given_time_witness :
    create_text_report [] 0 0 [] [] "a".data =
      some (reportPre [] ++ "a".data ++ reportMid 0 0 ++ []) ∧
    create_text_report [] 0 0 [] [] "b".data =
      some (reportPre [] ++ "b".data ++ reportMid 0 0 ++ []) ∧
    ((reportPre [] ++ "a".data ++ reportMid 0 0 ++ []) =
      (reportPre [] ++ "b".data ++ reportMid 0 0 ++ []) ↔ "a".data = "b".data) :=
  ⟨rfl, rfl,
    c9_deterministic_given_time [] 0 0 [] [] "a".data "b".data _ _ rfl rfl⟩

/-- C10 counterexample: `load_history` does not always return a list —
when the history file contains the JSON document `5`, it returns the
parsed number, not a list. -/
theorem c10_counterexample :
    load_history (.contents "5".data) = Json.num 5 ∧
    ∀ l : List Json, load_history (.contents "5".data) ≠ Json.arr l := by
  refine ⟨rfl, ?_⟩
  intro l h
  have h1 : load_history (.contents "5".data) = Json.num 5 := rfl
  rw [h1] at h
  exact Json.noConfusion h

/-- C10 amended: `load_history` is total and never raises: for every
filesystem state it returns the parsed JSON value (of whatever shape)
when the file exists and parses, and the empty list when the file is
absent, unreadable, or fails to parse. -/
theorem c10_total_parsed_or_empty (fs : FSState) :
    (∃ s v, fs = .contents s ∧ parseJson s = some v ∧ load_history fs = v) ∨
    load_history fs = Json.arr [] := by
  cases fs with
  | absent => right; rfl
  | unreadable => right; rfl
  | contents s =>
    cases hp : parseJson s with
    | none =>
      right
      show (match parseJson s with
        | some v => v
        | none => Json.arr []) = Json.arr []
      rw [hp]
    | some v =>
      left
      refine ⟨s, v, rfl, hp, ?_⟩
      show (match parseJson s with
        | some v => v
        | none => Json.arr []) = v
      rw [hp]
